import Mathlib

/-!
Shallow embedding of the adaptive progress/evaluation core of the
Neuroticher language-tutoring bot (src/learning_engine.py and
src/database.py), together with proofs settling the frozen claims.

Modelling conventions:
* Python `float` values and arithmetic are modelled as `ℚ` (the decimal
  literals of the source are exact rationals; no comparison in this code
  is decided by a sub-ulp margin on realistic inputs).
* Python `int` is modelled as `ℤ` (or `ℕ` where the source value is a
  length/count by construction).
* Character classes (`\w`, `\s`, `str.lower`) are modelled at ASCII
  granularity, which is exact for every string the claims mention.
* Fallible parsing (`date.fromisoformat`) returns `Option`.
-/

namespace LearningEngine

/-- Embeds `LearningEngine.get_user_level` (src/learning_engine.py lines
26–33): decision table from accuracy and exercise volume to a tier name. -/
def get_user_level (accuracy : ℚ) (total_exercises : ℤ) : String :=
  if total_exercises < 10 then "beginner"
  else if accuracy ≥ 0.85 ∧ total_exercises ≥ 50 then "advanced"
  else if accuracy ≥ 0.70 ∧ total_exercises ≥ 20 then "intermediate"
  else "beginner"

/-- Rank of a tier name in the order beginner < intermediate < advanced,
used to state monotonicity of the classifier. -/
def levelRank (level : String) : ℕ :=
  if level = "advanced" then 2
  else if level = "intermediate" then 1
  else 0

/-- The level decision table exactly as the spec sentence lists it
(§4.3), for comparison with `get_user_level`. -/
def classify_level_spec (accuracy : ℚ) (total_exercises : ℤ) : String :=
  if total_exercises < 10 then "beginner"
  else if accuracy ≥ 0.85 ∧ total_exercises ≥ 50 then "advanced"
  else if accuracy ≥ 0.70 ∧ total_exercises ≥ 20 then "intermediate"
  else "beginner"

/-- Embeds `LearningEngine.calculate_difficulty` (src/learning_engine.py
lines 40–50).  The source reads its two inputs from a stats dict with
`float(user_stats.get("accuracy", 0.5) or 0.5)` and
`int(user_stats.get("total_exercises", 0) or 0)`: a missing key falls back
to the `get` default, and a falsy stored value (`0`/`0.0`/`None`) falls
back through `or`; both coercions are embedded here, with a missing key
modelled as `none`. -/
def calculate_difficulty (stats_accuracy : Option ℚ) (stats_total : Option ℤ) : ℚ :=
  let accuracy : ℚ :=
    match stats_accuracy with
    | none => 0.5
    | some a => if a = 0 then 0.5 else a
  let total : ℤ :=
    match stats_total with
    | none => 0
    | some t => t
  if total < 5 then 0.3
  else if accuracy ≥ 0.9 then min 0.9 (0.55 + (total : ℚ) / 120)
  else if accuracy ≤ 0.5 then max 0.2 (0.45 - (total : ℚ) / 250)
  else 0.5

/-- ASCII model of the regex word-character class `\w` used by
`normalize_answer`'s substitution: letter, digit, or underscore. -/
def isWordChar (c : Char) : Bool := c.isAlpha || c.isDigit || c == '_'

/-- Length of the maximal prefix of word characters of a character list. -/
def wordRun : List Char → ℕ
  | [] => 0
  | c :: cs => if isWordChar c then wordRun cs + 1 else 0

/-- Whether the pattern `\b\w+'\w+\b` (the body of the negative lookahead
in src/learning_engine.py line 54) matches starting at the current
position, given whether the preceding original character is a word
character.  A word character is never an apostrophe and `\b` after `\w+`
holds only where a run ends, so both `+`s are forced to the maximal runs. -/
def contractionHere (prevWord : Bool) (cs : List Char) : Bool :=
  !prevWord &&
    (decide (1 ≤ wordRun cs) &&
      (match cs.drop (wordRun cs) with
       | '\'' :: rest =>
         decide (1 ≤ wordRun rest) &&
           (match rest.drop (wordRun rest) with
            | [] => true
            | d :: _ => !isWordChar d)
       | _ => false))

/-- One pass of `re.sub(r"(?!\b\w+'\w+\b)[^\w\s']", " ", text)`
(src/learning_engine.py line 54): every single-character match of the
class `[^\w\s']` becomes one space unless the negative lookahead blocks
it.  Lookaheads read the original string, so the word-character flag of
the preceding original character is threaded through unchanged by
replacements. -/
def punctSub (prevWord : Bool) : List Char → List Char
  | [] => []
  | c :: rest =>
    (if !(isWordChar c || c.isWhitespace || c == '\'')
        && !contractionHere prevWord (c :: rest)
     then ' ' else c) :: punctSub (isWordChar c) rest

/-- `str.strip()` at ASCII granularity: drop leading and trailing
whitespace. -/
def pyStrip (cs : List Char) : List Char :=
  ((cs.dropWhile Char.isWhitespace).reverse.dropWhile Char.isWhitespace).reverse

/-- One pass of `re.sub(r"\s+", " ", text)` (src/learning_engine.py
line 55): each maximal whitespace run becomes a single space; the flag
records whether the previous character was whitespace. -/
def collapseWs : List Char → Bool → List Char
  | [], _ => []
  | c :: rest, prevWs =>
    if c.isWhitespace then
      (if prevWs then [] else [' ']) ++ collapseWs rest true
    else c :: collapseWs rest false

/-- Embeds `LearningEngine.normalize_answer` (src/learning_engine.py
lines 52–56): strip, lower-case, punctuation-to-space substitution with
the contraction lookahead, whitespace collapse, strip. -/
def normalize_answer (text : String) : String :=
  ⟨pyStrip (collapseWs (punctSub false ((pyStrip text.data).map Char.toLower)) false)⟩

/-- The `(text or "")` guard of src/learning_engine.py line 53 applied to
an optional input: a `None` argument behaves as the empty string. -/
def normalize_answer_opt (text : Option String) : String :=
  normalize_answer (text.getD "")

/-- The character-keeping rule exactly as the spec sentence words it: a
letter, a digit, whitespace, or an apostrophe inside a word (between two
alphanumeric characters, the contraction pattern) is kept; everything
else becomes a space.  Used to compare the spec's wording with the
code. -/
def specKeepChar (prev : Option Char) (c : Char) (next : Option Char) : Bool :=
  c.isAlpha || c.isDigit || c.isWhitespace ||
    (c == '\'' &&
      (match prev with
       | some p => p.isAlphanum
       | none => false) &&
      (match next with
       | some n => n.isAlphanum
       | none => false))

/-- The substitution pass of the spec's wording, threading the preceding
original character for the inside-a-word test. -/
def specSubChars : Option Char → List Char → List Char
  | _, [] => []
  | prev, c :: rest =>
    (if specKeepChar prev c rest.head? then c else ' ') :: specSubChars (some c) rest

/-- The whole normalization algorithm as the spec sentence describes it:
trim, lower-case, keep letters/digits/whitespace/contraction-internal
apostrophes and replace the rest by spaces, collapse whitespace, trim. -/
def normalize_spec (text : String) : String :=
  ⟨pyStrip (collapseWs (specSubChars none ((pyStrip text.data).map Char.toLower)) false)⟩

/-- The normalization algorithm with the substitution the code actually
performs: every character outside `\w`, whitespace and apostrophe becomes
a space — all apostrophes are kept, wherever they stand. -/
def normalize_amended (text : String) : String :=
  ⟨pyStrip (collapseWs (((pyStrip text.data).map Char.toLower).map
      (fun c => if isWordChar c || c.isWhitespace || c == '\'' then c else ' ')) false)⟩

/-- Tokenization performed by `str.split()` with no arguments: the
maximal nonempty runs of non-whitespace characters, in order.  `acc`
holds the current run reversed. -/
def pySplitWs : List Char → List Char → List (List Char)
  | [], acc => if acc.isEmpty then [] else [acc.reverse]
  | c :: rest, acc =>
    if c.isWhitespace then
      (if acc.isEmpty then pySplitWs rest [] else acc.reverse :: pySplitWs rest [])
    else pySplitWs rest (c :: acc)

/-- The token list of a string under `str.split()`. -/
def pyWords (s : String) : List String :=
  (pySplitWs s.data []).map (fun w => ⟨w⟩)

/-- Embeds `LearningEngine._check_partial_match` (src/learning_engine.py
lines 70–77): guard empty strings, build the two token sets, guard an
empty expected set, then test whether the recall ratio reaches 0.6.  The
two `set(...)` locals are inlined. -/
def check_partial_match (user correct : String) : Bool :=
  if user = "" ∨ correct = "" then false
  else if (pyWords correct).toFinset = ∅ then false
  else
    decide ((((pyWords user).toFinset ∩ (pyWords correct).toFinset).card : ℚ)
        / ((pyWords correct).toFinset.card : ℚ) ≥ 0.6)

/-- The evaluation record of src/learning_engine.py lines 7–13.  The
`feedback` field — a randomly chosen wording inside the three-way bucket
decided by `is_correct`/`partial_match` in `_generate_feedback` — is
presentation-only and is not part of any claim, so it is omitted here. -/
structure EvaluationResult where
  is_correct : Bool
  partial_match : Bool
  normalized_user : String
  normalized_correct : String
deriving DecidableEq

/-- Embeds `LearningEngine.evaluate_answer` (src/learning_engine.py
lines 58–68): normalize both answers, exact match on equality, partial
match checked only when not exact. -/
def evaluate_answer (user_answer correct_answer : String) : EvaluationResult :=
  let user_clean := normalize_answer user_answer
  let correct_clean := normalize_answer correct_answer
  let is_correct := user_clean == correct_clean
  { is_correct := is_correct
    partial_match :=
      if is_correct then false else check_partial_match user_clean correct_clean
    normalized_user := user_clean
    normalized_correct := correct_clean }

end LearningEngine

namespace UserDatabase

/-- A Python `datetime.date`: a Gregorian calendar date.  Python
restricts the year to 1..9999; dates built by `parseIsoDate` respect
that, while `pred` (used only to form "yesterday") is total. -/
structure PyDate where
  year : ℤ
  month : ℕ
  day : ℕ
deriving DecidableEq

/-- Gregorian leap-year rule, as `calendar.isleap` / `datetime` use it. -/
def isLeapYear (y : ℤ) : Bool :=
  y % 4 = 0 ∧ (y % 100 ≠ 0 ∨ y % 400 = 0)

/-- Days in a month of the Gregorian calendar. -/
def daysInMonth (y : ℤ) (m : ℕ) : ℕ :=
  if m = 2 then (if isLeapYear y then 29 else 28)
  else if m = 4 ∨ m = 6 ∨ m = 9 ∨ m = 11 then 30
  else 31

/-- `d - timedelta(days=1)` for a valid date: the previous calendar
day. -/
def PyDate.pred (d : PyDate) : PyDate :=
  if 1 < d.day then ⟨d.year, d.month, d.day - 1⟩
  else if 1 < d.month then ⟨d.year, d.month - 1, daysInMonth d.year (d.month - 1)⟩
  else ⟨d.year - 1, 12, 31⟩

/-- Digit character of a decimal digit. -/
def digitChar (n : ℕ) : Char := Char.ofNat (48 + n % 10)

/-- Zero-padded two-digit decimal rendering (`%02d` for values < 100). -/
def pad2 (n : ℕ) : List Char := [digitChar (n / 10), digitChar n]

/-- Zero-padded four-digit decimal rendering (`%04d` for values < 10000;
Python years never exceed 9999). -/
def pad4 (n : ℕ) : List Char :=
  [digitChar (n / 1000), digitChar (n / 100), digitChar (n / 10), digitChar n]

/-- `date.isoformat()`: `YYYY-MM-DD`. -/
def PyDate.isoformat (d : PyDate) : String :=
  ⟨pad4 d.year.toNat ++ '-' :: pad2 d.month ++ '-' :: pad2 d.day⟩

/-- Numeric value of a digit character. -/
def digitVal (c : Char) : ℕ := c.toNat - 48

/-- `date.fromisoformat`: accepts exactly `YYYY-MM-DD` with a valid
calendar date (year ≥ 1, month 1..12, day within the month), and fails
on anything else.  Failure models the `ValueError` caught by
`_streak_update`. -/
def parseIsoDate (s : String) : Option PyDate :=
  match s.data with
  | [y1, y2, y3, y4, h1, m1, m2, h2, d1, d2] =>
    if (y1.isDigit && y2.isDigit && y3.isDigit && y4.isDigit
        && h1 == '-' && m1.isDigit && m2.isDigit
        && h2 == '-' && d1.isDigit && d2.isDigit) then
      let y : ℤ := (1000 * digitVal y1 + 100 * digitVal y2
        + 10 * digitVal y3 + digitVal y4 : ℕ)
      let m : ℕ := 10 * digitVal m1 + digitVal m2
      let d : ℕ := 10 * digitVal d1 + digitVal d2
      if 1 ≤ y ∧ 1 ≤ m ∧ m ≤ 12 ∧ 1 ≤ d ∧ d ≤ daysInMonth y m then
        some ⟨y, m, d⟩
      else none
    else none
  | _ => none

/-- Embeds `UserDatabase._streak_update` (src/database.py lines
120–136), with the wall-clock `date.today()` passed explicitly.  The
first component is the action code (`0` keep, `1` increment, `-1`
reset), the second the new stored date string.  `not last_date_str` is
true in Python for both `None` and the empty string. -/
def streak_update (today : PyDate) (last_date_str : Option String) : ℤ × String :=
  let today_str := today.isoformat
  match last_date_str with
  | none => (1, today_str)
  | some s =>
    if s = "" then (1, today_str)
    else
      match parseIsoDate s with
      | none => (1, today_str)
      | some last_date =>
        if last_date = today then (0, today_str)
        else if last_date = today.pred then (1, today_str)
        else (-1, today_str)

/-- The per-user mutable row of the `users` table, restricted to the
fields `record_exercise` reads and writes (`last_active`, a wall-clock
timestamp, is omitted).  `last_exercise_date` is a nullable TEXT
column. -/
structure UserState where
  total_exercises : ℤ
  correct_answers : ℤ
  accuracy : ℚ
  weak_topics : List String
  level : String
  streak_days : ℤ
  last_exercise_date : Option String
deriving DecidableEq

/-- The weak-topic update of src/database.py lines 158–161: on a wrong
answer with a non-empty topic not already listed, append it and keep the
last five entries (`weak_topics[-5:]`). -/
def weakTopicsUpdate (is_correct : Bool) (topic : String)
    (weak_topics : List String) : List String :=
  if ¬is_correct ∧ topic ≠ "" ∧ topic ∉ weak_topics then
    let appended := weak_topics ++ [topic]
    appended.drop (appended.length - 5)
  else weak_topics

/-- Python truthiness of the stored `last_exercise_date` value, used by
src/database.py line 169 to tell a first-ever exercise from a streak
continuation. -/
def lastDateTruthy : Option String → Bool
  | none => false
  | some s => s ≠ ""

/-- Embeds the state transition of `UserDatabase.record_exercise`
(src/database.py lines 138–244) on the prior user row: counter and
accuracy update (lines 154–156), weak-topic update (lines 158–161),
streak transition (lines 163–171), and the UPDATE statement's SET list
(level only overwritten when `new_level` is truthy).  The INSERT into
`exercise_history` and the wall-clock `last_active` column do not affect
the user-progress state and are not modelled. -/
def record_exercise (today : PyDate) (user : UserState) (topic : String)
    (is_correct : Bool) (new_level : Option String) : UserState :=
  let total := user.total_exercises + 1
  let correct := user.correct_answers + (if is_correct then 1 else 0)
  let accuracy : ℚ := if total ≠ 0 then (correct : ℚ) / (total : ℚ) else 0
  let weak_topics := weakTopicsUpdate is_correct topic user.weak_topics
  let action_today := streak_update today user.last_exercise_date
  let new_streak : ℤ :=
    if action_today.1 = 0 then user.streak_days
    else if action_today.1 = 1 then
      (if lastDateTruthy user.last_exercise_date then user.streak_days + 1 else 1)
    else 1
  { total_exercises := total
    correct_answers := correct
    accuracy := accuracy
    weak_topics := weak_topics
    level :=
      match new_level with
      | some l => if l ≠ "" then l else user.level
      | none => user.level
    streak_days := new_streak
    last_exercise_date := some action_today.2 }

end UserDatabase

namespace LearningEngine

/-- The lookahead body `\b\w+'\w+\b` cannot match at a position whose
character is not a word character, since the pattern must start with a
word character. -/
theorem contractionHere_of_not_word {c : Char} (h : isWordChar c = false)
    (prevWord : Bool) (rest : List Char) :
    contractionHere prevWord (c :: rest) = false := by
  unfold contractionHere wordRun
  simp [h]

/-- The negative lookahead of the substitution in `normalize_answer` is
vacuous: a character matched by `[^\w\s']` is never a word character, so
the lookahead body never matches there, and the substitution replaces
exactly the characters outside `\w`, whitespace and apostrophe. -/
theorem punctSub_eq_map (prevWord : Bool) (cs : List Char) :
    punctSub prevWord cs
      = cs.map (fun c =>
          if isWordChar c || c.isWhitespace || c == '\'' then c else ' ') := by
  induction cs generalizing prevWord with
  | nil => rfl
  | cons c rest ih =>
    simp only [punctSub, List.map_cons, ih]
    congr 1
    by_cases hc : (isWordChar c || c.isWhitespace || c == '\'') = true
    · simp [hc]
    · have hc' : (isWordChar c || c.isWhitespace || c == '\'') = false := by
        revert hc; cases isWordChar c || c.isWhitespace || c == '\'' <;> simp
      have hw : isWordChar c = false := by
        revert hc'; cases hx : isWordChar c <;> simp
      simp [hc', contractionHere_of_not_word hw]

/-- Component equation for `evaluate_answer`: exactness is equality of
the two normalized strings. -/
theorem evaluate_is_correct_eq (ua ca : String) :
    (evaluate_answer ua ca).is_correct
      = (normalize_answer ua == normalize_answer ca) := rfl

/-- Component equation for `evaluate_answer`: the partial flag is checked
only when the match is not exact. -/
theorem evaluate_partial_eq (ua ca : String) :
    (evaluate_answer ua ca).partial_match
      = if normalize_answer ua == normalize_answer ca then false
        else check_partial_match (normalize_answer ua) (normalize_answer ca) := rfl

/-- `check_partial_match` agrees with the recall-ratio rule: partial
exactly when the expected token set is non-empty and the ratio reaches
0.6.  The source's extra empty-string guards never change the outcome:
an empty expected string has an empty token set, and an empty user
string yields ratio 0 < 0.6. -/
theorem check_partial_match_iff (u c : String) :
    check_partial_match u c = true ↔
      (pyWords c).toFinset ≠ ∅ ∧
        (((pyWords u).toFinset ∩ (pyWords c).toFinset).card : ℚ)
            / ((pyWords c).toFinset.card : ℚ) ≥ 0.6 := by
  unfold check_partial_match
  by_cases hu : u = ""
  · subst hu
    rw [if_pos (Or.inl rfl)]
    constructor
    · intro h; exact absurd h (by simp)
    · rintro ⟨hc, hr⟩
      simp only [show pyWords "" = [] from rfl, List.toFinset_nil,
        Finset.empty_inter, Finset.card_empty, Nat.cast_zero, zero_div,
        ge_iff_le] at hr
      norm_num at hr
  · by_cases hc : c = ""
    · subst hc
      rw [if_pos (Or.inr rfl)]
      constructor
      · intro h; exact absurd h (by simp)
      · rintro ⟨hcne, _⟩
        exact (hcne (by simp [show pyWords "" = [] from rfl])).elim
    · rw [if_neg (by tauto)]
      by_cases hce : (pyWords c).toFinset = ∅
      · rw [if_pos hce]
        constructor
        · intro h; exact absurd h (by simp)
        · rintro ⟨hcne, _⟩; exact (hcne hce).elim
      · rw [if_neg hce, decide_eq_true_eq]
        exact ⟨fun h => ⟨hce, h⟩, fun h => h.2⟩

end LearningEngine

namespace UserDatabase

/-- The previous calendar day is never the day itself. -/
theorem PyDate.pred_ne (d : PyDate) : d.pred ≠ d := by
  unfold PyDate.pred
  split_ifs with h1 h2 <;> intro h <;>
    first
      | (have hd := congrArg PyDate.day h; simp at hd; omega)
      | (have hm := congrArg PyDate.month h; simp at hm; omega)
      | (have hy := congrArg PyDate.year h; simp at hy; omega)

/-- `_streak_update` always returns today's ISO string as the new stored
date, whatever the prior value was. -/
theorem streak_update_snd (today : PyDate) (o : Option String) :
    (streak_update today o).2 = today.isoformat := by
  unfold streak_update
  cases o with
  | none => rfl
  | some s =>
    by_cases hs : s = ""
    · simp [hs]
    · simp only [if_neg hs]
      cases parseIsoDate s with
      | none => rfl
      | some d => dsimp only; split_ifs <;> rfl

/-- Component equation: the streak stored by `record_exercise` is the
action-code dispatch of src/database.py lines 165–171. -/
theorem record_exercise_streak (today : PyDate) (user : UserState)
    (topic : String) (is_correct : Bool) (new_level : Option String) :
    (record_exercise today user topic is_correct new_level).streak_days
      = (if (streak_update today user.last_exercise_date).1 = 0 then user.streak_days
         else if (streak_update today user.last_exercise_date).1 = 1 then
           (if lastDateTruthy user.last_exercise_date then user.streak_days + 1 else 1)
         else 1) := rfl

/-- Component equation: the stored date after `record_exercise` is the
second component of `_streak_update`. -/
theorem record_exercise_last_date (today : PyDate) (user : UserState)
    (topic : String) (is_correct : Bool) (new_level : Option String) :
    (record_exercise today user topic is_correct new_level).last_exercise_date
      = some (streak_update today user.last_exercise_date).2 := rfl

/-- Component equation: the weak-topic list after `record_exercise`. -/
theorem record_exercise_weak (today : PyDate) (user : UserState)
    (topic : String) (is_correct : Bool) (new_level : Option String) :
    (record_exercise today user topic is_correct new_level).weak_topics
      = weakTopicsUpdate is_correct topic user.weak_topics := rfl

end UserDatabase

/-- C1: `record_exercise` applies the specified streak transition for an
absent prior date and for every prior date that parses: no prior date →
streak 1; prior date equal to today → streak unchanged; prior date equal
to yesterday → prior streak + 1; any other parsed date (a gap of two or
more days, or a future date) → streak 1; and in every case the stored
`last_exercise_date` becomes today's ISO string. -/
theorem C1_streak_transitions (today : UserDatabase.PyDate)
    (user : UserDatabase.UserState) (topic : String) (is_correct : Bool)
    (new_level : Option String) :
    ((user.last_exercise_date = none ∨ user.last_exercise_date = some "") →
      (UserDatabase.record_exercise today user topic is_correct new_level).streak_days = 1)
    ∧ (∀ s d, user.last_exercise_date = some s →
        UserDatabase.parseIsoDate s = some d →
        ((d = today →
          (UserDatabase.record_exercise today user topic is_correct new_level).streak_days
            = user.streak_days)
        ∧ (d = today.pred →
          (UserDatabase.record_exercise today user topic is_correct new_level).streak_days
            = user.streak_days + 1)
        ∧ (d ≠ today → d ≠ today.pred →
          (UserDatabase.record_exercise today user topic is_correct new_level).streak_days
            = 1)))
    ∧ (UserDatabase.record_exercise today user topic is_correct new_level).last_exercise_date
        = some today.isoformat := by
  refine ⟨?_, ?_, ?_⟩
  · intro h
    rw [UserDatabase.record_exercise_streak]
    rcases h with h | h <;>
      simp [h, UserDatabase.streak_update, UserDatabase.lastDateTruthy]
  · intro s d hs hd
    have hsne : s ≠ "" := by
      intro he
      rw [he, show UserDatabase.parseIsoDate "" = none from rfl] at hd
      exact Option.noConfusion hd
    have hstep : (UserDatabase.streak_update today user.last_exercise_date)
        = (if d = today then ((0 : ℤ), today.isoformat)
           else if d = today.pred then ((1 : ℤ), today.isoformat)
           else ((-1 : ℤ), today.isoformat)) := by
      rw [hs]
      unfold UserDatabase.streak_update
      dsimp only
      rw [if_neg hsne, hd]
    have htruthy : UserDatabase.lastDateTruthy user.last_exercise_date = true := by
      rw [hs]
      simp [UserDatabase.lastDateTruthy, hsne]
    refine ⟨?_, ?_, ?_⟩
    · intro heq
      rw [UserDatabase.record_exercise_streak, hstep, if_pos heq]
      norm_num
    · intro heq
      have hne : d ≠ today := by
        rw [heq]; exact UserDatabase.PyDate.pred_ne today
      rw [UserDatabase.record_exercise_streak, hstep, if_neg hne, if_pos heq, htruthy]
      norm_num
    · intro hne hne'
      rw [UserDatabase.record_exercise_streak, hstep, if_neg hne, if_neg hne']
      norm_num
  · rw [UserDatabase.record_exercise_last_date, UserDatabase.streak_update_snd]

/-- Witness for C1: yesterday's date "2024-03-14" stored with streak 3,
exercising on 2024-03-15 gives streak 4; an absent date gives streak 1. -/
theorem C1_streak_transitions_witness :
    (UserDatabase.record_exercise ⟨2024, 3, 15⟩
        ⟨10, 7, 0, [], "beginner", 3, some "2024-03-14"⟩ "Articles" true none).streak_days
      = 3 + 1
    ∧ (UserDatabase.record_exercise ⟨2024, 3, 15⟩
        ⟨0, 0, 0, [], "beginner", 0, none⟩ "Articles" true none).streak_days = 1 :=
  ⟨((C1_streak_transitions ⟨2024, 3, 15⟩
      ⟨10, 7, 0, [], "beginner", 3, some "2024-03-14"⟩ "Articles" true none).2.1
      "2024-03-14" ⟨2024, 3, 14⟩ rfl (by decide)).2.1 (by decide),
    (C1_streak_transitions ⟨2024, 3, 15⟩
      ⟨0, 0, 0, [], "beginner", 0, none⟩ "Articles" true none).1 (Or.inl rfl)⟩

/-- C2 (code behavior at the failing input): with a stored
`last_exercise_date` that is non-empty but unparseable, `_streak_update`
takes its exception path and returns action 1, and `record_exercise`'s
`(streak_days + 1) if last_ex_date else 1` dispatch sees a truthy string,
so the streak is incremented from the prior value instead of being reset
to 1 as the spec's defensive-recovery rule requires; the date is still
set to today and no error escapes. -/
theorem C2_corrupt_date_code_behavior :
    UserDatabase.parseIsoDate "garbage" = none
    ∧ (UserDatabase.record_exercise ⟨2024, 3, 15⟩
        ⟨10, 7, 0, [], "beginner", 7, some "garbage"⟩ "Articles" true none).streak_days
      = 7 + 1
    ∧ (UserDatabase.record_exercise ⟨2024, 3, 15⟩
        ⟨10, 7, 0, [], "beginner", 7, some "garbage"⟩ "Articles" true none).last_exercise_date
      = some "2024-03-15" := by
  refine ⟨by decide, by decide, by decide⟩

/-- C8: `record_exercise` touches `weak_topics` only on a wrong answer
with a non-empty topic not already listed, appending it and keeping the
last five entries; a correct answer (or an empty/already-listed topic)
leaves the list unchanged; and from an empty list six wrong answers on
six distinct non-empty topics leave exactly the five most recent in
recency order, the oldest evicted. -/
theorem C8_weak_topics (today : UserDatabase.PyDate)
    (user : UserDatabase.UserState) (topic : String) (new_level : Option String) :
    ((UserDatabase.record_exercise today user topic true new_level).weak_topics
        = user.weak_topics)
    ∧ (topic ≠ "" → topic ∉ user.weak_topics →
        (UserDatabase.record_exercise today user topic false new_level).weak_topics
          = (user.weak_topics ++ [topic]).drop ((user.weak_topics ++ [topic]).length - 5))
    ∧ (topic = "" ∨ topic ∈ user.weak_topics →
        (UserDatabase.record_exercise today user topic false new_level).weak_topics
          = user.weak_topics)
    ∧ (∀ t1 t2 t3 t4 t5 t6 : String, user.weak_topics = [] →
        t1 ≠ "" → t2 ≠ "" → t3 ≠ "" → t4 ≠ "" → t5 ≠ "" → t6 ≠ "" →
        t2 ≠ t1 → t3 ≠ t1 → t3 ≠ t2 → t4 ≠ t1 → t4 ≠ t2 → t4 ≠ t3 →
        t5 ≠ t1 → t5 ≠ t2 → t5 ≠ t3 → t5 ≠ t4 →
        t6 ≠ t1 → t6 ≠ t2 → t6 ≠ t3 → t6 ≠ t4 → t6 ≠ t5 →
        (([t1, t2, t3, t4, t5, t6].foldl
            (fun u t => UserDatabase.record_exercise today u t false new_level)
            user).weak_topics)
          = [t2, t3, t4, t5, t6]) := by
  refine ⟨?_, ?_, ?_, ?_⟩
  · rw [UserDatabase.record_exercise_weak]
    simp [UserDatabase.weakTopicsUpdate]
  · intro hne hmem
    rw [UserDatabase.record_exercise_weak]
    rw [UserDatabase.weakTopicsUpdate, if_pos (by exact ⟨by simp, hne, hmem⟩)]
  · intro h
    rw [UserDatabase.record_exercise_weak]
    rw [UserDatabase.weakTopicsUpdate, if_neg (by tauto)]
  · intro t1 t2 t3 t4 t5 t6 hempty hn1 hn2 hn3 hn4 hn5 hn6
      h21 h31 h32 h41 h42 h43 h51 h52 h53 h54 h61 h62 h63 h64 h65
    simp only [List.foldl_cons, List.foldl_nil,
      UserDatabase.record_exercise_weak, hempty]
    rw [show UserDatabase.weakTopicsUpdate false t1 [] = [t1] from by
      simp [UserDatabase.weakTopicsUpdate, hn1]]
    rw [show UserDatabase.weakTopicsUpdate false t2 [t1] = [t1, t2] from by
      simp [UserDatabase.weakTopicsUpdate, hn2, h21]]
    rw [show UserDatabase.weakTopicsUpdate false t3 [t1, t2] = [t1, t2, t3] from by
      simp [UserDatabase.weakTopicsUpdate, hn3, h31, h32]]
    rw [show UserDatabase.weakTopicsUpdate false t4 [t1, t2, t3]
        = [t1, t2, t3, t4] from by
      simp [UserDatabase.weakTopicsUpdate, hn4, h41, h42, h43]]
    rw [show UserDatabase.weakTopicsUpdate false t5 [t1, t2, t3, t4]
        = [t1, t2, t3, t4, t5] from by
      simp [UserDatabase.weakTopicsUpdate, hn5, h51, h52, h53, h54]]
    rw [show UserDatabase.weakTopicsUpdate false t6 [t1, t2, t3, t4, t5]
        = [t2, t3, t4, t5, t6] from by
      simp [UserDatabase.weakTopicsUpdate, hn6, h61, h62, h63, h64, h65]]

/-- Witness for C8: six distinct topics from an empty list keep the five
most recent, and a correct answer leaves the list unchanged. -/
theorem C8_weak_topics_witness :
    (([ "a", "b", "c", "d", "e", "f" ].foldl
        (fun u t => UserDatabase.record_exercise ⟨2024, 3, 15⟩ u t false none)
        ⟨0, 0, 0, [], "beginner", 0, none⟩).weak_topics)
      = ["b", "c", "d", "e", "f"] :=
  (C8_weak_topics ⟨2024, 3, 15⟩ ⟨0, 0, 0, [], "beginner", 0, none⟩ "x" none).2.2.2
    "a" "b" "c" "d" "e" "f" rfl
    (by decide) (by decide) (by decide) (by decide) (by decide) (by decide)
    (by decide) (by decide) (by decide) (by decide) (by decide) (by decide)
    (by decide) (by decide) (by decide) (by decide) (by decide) (by decide)
    (by decide) (by decide) (by decide)

/-- C9: `record_exercise` preserves the counter invariants: the total
rises by one, the correct count rises by one exactly on a correct
answer, correct stays at most total, and the stored accuracy is exactly
correct/total, hence in [0,1]. -/
theorem C9_counter_invariants (today : UserDatabase.PyDate)
    (user : UserDatabase.UserState) (topic : String) (is_correct : Bool)
    (new_level : Option String)
    (h0 : 0 ≤ user.correct_answers)
    (h1 : user.correct_answers ≤ user.total_exercises) :
    (UserDatabase.record_exercise today user topic is_correct new_level).total_exercises
        = user.total_exercises + 1
    ∧ (UserDatabase.record_exercise today user topic is_correct new_level).correct_answers
        = user.correct_answers + (if is_correct then 1 else 0)
    ∧ (UserDatabase.record_exercise today user topic is_correct new_level).correct_answers
        ≤ (UserDatabase.record_exercise today user topic is_correct new_level).total_exercises
    ∧ (UserDatabase.record_exercise today user topic is_correct new_level).accuracy
        = ((UserDatabase.record_exercise today user topic is_correct new_level).correct_answers : ℚ)
          / ((UserDatabase.record_exercise today user topic is_correct new_level).total_exercises : ℚ)
    ∧ 0 ≤ (UserDatabase.record_exercise today user topic is_correct new_level).accuracy
    ∧ (UserDatabase.record_exercise today user topic is_correct new_level).accuracy ≤ 1 := by
  have htot :
      (UserDatabase.record_exercise today user topic is_correct new_level).total_exercises
        = user.total_exercises + 1 := rfl
  have hcor :
      (UserDatabase.record_exercise today user topic is_correct new_level).correct_answers
        = user.correct_answers + (if is_correct then 1 else 0) := rfl
  have htne : user.total_exercises + 1 ≠ 0 := by omega
  have hacc :
      (UserDatabase.record_exercise today user topic is_correct new_level).accuracy
        = ((user.correct_answers + (if is_correct then 1 else 0) : ℤ) : ℚ)
          / ((user.total_exercises + 1 : ℤ) : ℚ) := by
    show (if user.total_exercises + 1 ≠ 0 then
        ((user.correct_answers + (if is_correct then 1 else 0) : ℤ) : ℚ)
          / ((user.total_exercises + 1 : ℤ) : ℚ)
      else 0) = _
    rw [if_pos htne]
  have hC0 : (0 : ℤ) ≤ user.correct_answers + (if is_correct then 1 else 0) := by
    split_ifs <;> omega
  have hCT : user.correct_answers + (if is_correct then 1 else 0)
      ≤ user.total_exercises + 1 := by
    split_ifs <;> omega
  have hTpos : (0 : ℚ) < ((user.total_exercises + 1 : ℤ) : ℚ) := by
    exact_mod_cast (by omega : (0 : ℤ) < user.total_exercises + 1)
  refine ⟨htot, hcor, ?_, ?_, ?_, ?_⟩
  · rw [htot, hcor]; exact hCT
  · rw [hacc, htot, hcor]
  · rw [hacc]
    exact div_nonneg (by exact_mod_cast hC0) (le_of_lt hTpos)
  · rw [hacc]
    exact (div_le_one hTpos).mpr (by exact_mod_cast hCT)

/-- Witness for C9 at a prior state with 7 of 10 correct. -/
theorem C9_counter_invariants_witness :
    (UserDatabase.record_exercise ⟨2024, 3, 15⟩
        ⟨10, 7, 0, [], "beginner", 0, none⟩ "Articles" true none).total_exercises = 11
    ∧ 0 ≤ (UserDatabase.record_exercise ⟨2024, 3, 15⟩
        ⟨10, 7, 0, [], "beginner", 0, none⟩ "Articles" true none).accuracy :=
  ⟨(C9_counter_invariants ⟨2024, 3, 15⟩ ⟨10, 7, 0, [], "beginner", 0, none⟩
      "Articles" true none (by norm_num) (by norm_num)).1,
    (C9_counter_invariants ⟨2024, 3, 15⟩ ⟨10, 7, 0, [], "beginner", 0, none⟩
      "Articles" true none (by norm_num) (by norm_num)).2.2.2.2.1⟩

/-- C5: the level classifier implements exactly the four-row decision
table of the spec, with the advanced check before the intermediate check
and inclusive thresholds; a highly accurate learner with low volume stays
at a lower tier (accuracy 1 with 15 exercises is still beginner, while
the inclusive boundaries 0.85/50 and 0.70/20 reach advanced and
intermediate). -/
theorem C5_level_decision_table (accuracy : ℚ) (total_exercises : ℤ)
    (h : 0 ≤ total_exercises) :
    LearningEngine.get_user_level accuracy total_exercises
      = LearningEngine.classify_level_spec accuracy total_exercises
    ∧ LearningEngine.get_user_level 1 15 = "beginner"
    ∧ LearningEngine.get_user_level 0.85 50 = "advanced"
    ∧ LearningEngine.get_user_level 0.70 20 = "intermediate"
    ∧ LearningEngine.get_user_level 1 9 = "beginner" := by
  refine ⟨rfl, ?_, ?_, ?_, ?_⟩ <;> norm_num [LearningEngine.get_user_level]

/-- Witness for C5 at accuracy 1/2 and 12 exercises. -/
theorem C5_level_decision_table_witness :
    LearningEngine.get_user_level (1/2) 12
      = LearningEngine.classify_level_spec (1/2) 12 :=
  (C5_level_decision_table (1/2) 12 (by norm_num)).1

/-- C6: at fixed volume the classifier is monotone in accuracy with
respect to the rank beginner < intermediate < advanced, and its result is
always one of the three tier names. -/
theorem C6_level_monotone (t : ℤ) (a1 a2 : ℚ) (h : a1 ≤ a2) :
    LearningEngine.levelRank (LearningEngine.get_user_level a1 t)
        ≤ LearningEngine.levelRank (LearningEngine.get_user_level a2 t)
    ∧ LearningEngine.get_user_level a1 t ∈ ["beginner", "intermediate", "advanced"]
    ∧ LearningEngine.get_user_level a2 t ∈ ["beginner", "intermediate", "advanced"] := by
  have hmem : ∀ a : ℚ,
      LearningEngine.get_user_level a t ∈ ["beginner", "intermediate", "advanced"] := by
    intro a
    unfold LearningEngine.get_user_level
    split_ifs <;> simp
  refine ⟨?_, hmem a1, hmem a2⟩
  unfold LearningEngine.get_user_level
  by_cases h1 : t < 10
  · simp only [if_pos h1]; decide
  · simp only [if_neg h1]
    by_cases h2 : a1 ≥ 0.85 ∧ t ≥ 50
    · have h2' : a2 ≥ 0.85 ∧ t ≥ 50 := ⟨le_trans h2.1 h, h2.2⟩
      simp only [if_pos h2, if_pos h2']; decide
    · simp only [if_neg h2]
      by_cases h3 : a1 ≥ 0.70 ∧ t ≥ 20
      · have h3' : a2 ≥ 0.70 ∧ t ≥ 20 := ⟨le_trans h3.1 h, h3.2⟩
        simp only [if_pos h3]
        by_cases h4 : a2 ≥ 0.85 ∧ t ≥ 50
        · simp only [if_pos h4]; decide
        · simp only [if_neg h4, if_pos h3']; decide
      · simp only [if_neg h3]
        split_ifs <;> decide

/-- Witness for C6 at volume 30 and accuracies 0.6 ≤ 0.8. -/
theorem C6_level_monotone_witness :
    LearningEngine.levelRank (LearningEngine.get_user_level 0.6 30)
      ≤ LearningEngine.levelRank (LearningEngine.get_user_level 0.8 30) :=
  (C6_level_monotone 30 0.6 0.8 (by norm_num)).1

/-- C7: on accuracy in [0,1] and non-negative volume, the difficulty
calibrator returns 0.3 below 5 exercises regardless of accuracy,
min(0.9, 0.55 + t/120) at accuracy ≥ 0.9, max(0.2, 0.45 − t/250) at
accuracy ≤ 0.5, and 0.5 strictly between; the result always lies in
[0.2, 0.9].  (The source's `or 0.5` fallback replaces a stored accuracy
of exactly 0 by 0.5, which lands in the same ≤ 0.5 branch, so the stated
piecewise form is unaffected.) -/
theorem C7_difficulty_calibration (a : ℚ) (t : ℤ)
    (ha0 : 0 ≤ a) (ha1 : a ≤ 1) (ht : 0 ≤ t) :
    (t < 5 → LearningEngine.calculate_difficulty (some a) (some t) = 0.3)
    ∧ (5 ≤ t → a ≥ 0.9 →
        LearningEngine.calculate_difficulty (some a) (some t)
          = min 0.9 (0.55 + (t : ℚ) / 120))
    ∧ (5 ≤ t → a ≤ 0.5 →
        LearningEngine.calculate_difficulty (some a) (some t)
          = max 0.2 (0.45 - (t : ℚ) / 250))
    ∧ (5 ≤ t → 0.5 < a → a < 0.9 →
        LearningEngine.calculate_difficulty (some a) (some t) = 0.5)
    ∧ 0.2 ≤ LearningEngine.calculate_difficulty (some a) (some t)
    ∧ LearningEngine.calculate_difficulty (some a) (some t) ≤ 0.9 := by
  have h120 : (0 : ℚ) ≤ (t : ℚ) / 120 := by positivity
  have h250 : (0 : ℚ) ≤ (t : ℚ) / 250 := by
    positivity
  unfold LearningEngine.calculate_difficulty
  by_cases hz : a = 0
  · subst hz
    simp only [if_pos rfl]
    refine ⟨fun h5 => by rw [if_pos h5], fun h5 h9 => by norm_num at h9, ?_, ?_, ?_, ?_⟩
    · intro h5 _
      rw [if_neg (by omega), if_neg (by norm_num), if_pos (by norm_num)]
    · intro _ hlt _; norm_num at hlt
    · split_ifs <;> norm_num <;> linarith
    · split_ifs <;> norm_num <;> linarith
  · simp only [if_neg hz]
    refine ⟨fun h5 => by rw [if_pos h5], ?_, ?_, ?_, ?_, ?_⟩
    · intro h5 h9
      rw [if_neg (by omega), if_pos h9]
    · intro h5 hle
      rw [if_neg (by omega), if_neg (by intro h9; linarith), if_pos hle]
    · intro h5 hlt hlt9
      rw [if_neg (by omega), if_neg (by intro h9; linarith),
        if_neg (by intro hle; linarith)]
    · split_ifs <;> norm_num <;> linarith
    · split_ifs <;> norm_num <;> linarith

/-- Witness for C7 at accuracy 0.95 and 60 exercises. -/
theorem C7_difficulty_calibration_witness :
    LearningEngine.calculate_difficulty (some 0.95) (some 60)
      = min 0.9 (0.55 + (60 : ℚ) / 120) :=
  ((C7_difficulty_calibration 0.95 60 (by norm_num) (by norm_num)
    (by norm_num)).2.1) (by norm_num) (by norm_num)

/-- C3 (counterexample): the claim's algorithm — replace every character
that is not a letter, digit, whitespace, or apostrophe-inside-a-word —
disagrees with the code on "a_b '": the code keeps the underscore (the
regex class `\w` includes it) and the stray apostrophe (the substitution
class `[^\w\s']` can never match an apostrophe, wherever it stands),
giving "a_b '", while the claimed algorithm gives "a b". -/
theorem C3_normalize_counterexample :
    LearningEngine.normalize_answer "a_b '" = "a_b '"
    ∧ LearningEngine.normalize_spec "a_b '" = "a b"
    ∧ LearningEngine.normalize_answer "a_b '" ≠ LearningEngine.normalize_spec "a_b '" :=
  ⟨by decide, by decide, by decide⟩

/-- C3 (amended): `normalize_answer` trims, lower-cases, replaces every
character that is not a word character (letter, digit, or underscore),
whitespace, or an apostrophe — every apostrophe is preserved, wherever it
stands, because the substitution's character class already excludes
apostrophes and its negative lookahead never fires — with a single space,
collapses whitespace runs, and trims again; the claim's concrete examples
hold: "Don't!! worry." and "dont worry" normalize differently,
"I'm fine." normalizes to "i'm fine", and null/absent or empty input
yields the empty output. -/
theorem C3_normalize_amended_holds (s : String) :
    LearningEngine.normalize_answer s = LearningEngine.normalize_amended s
    ∧ LearningEngine.normalize_answer "Don't!! worry." = "don't worry"
    ∧ LearningEngine.normalize_answer "Don't!! worry."
        ≠ LearningEngine.normalize_answer "dont worry"
    ∧ LearningEngine.normalize_answer "I'm fine." = "i'm fine"
    ∧ LearningEngine.normalize_answer_opt none = ""
    ∧ LearningEngine.normalize_answer "" = "" := by
  refine ⟨?_, by decide, by decide, by decide, by decide, by decide⟩
  unfold LearningEngine.normalize_answer LearningEngine.normalize_amended
  rw [LearningEngine.punctSub_eq_map]

/-- C4: `evaluate_answer` is an exact match (correct, not partial) iff
the normalized forms are equal; otherwise it is a partial match iff the
expected-answer token set is non-empty and the recall ratio
|intersection| / |expected token set| reaches 0.6 (an empty expected
token set admits no partial match); "I go to school" vs
"I go to the school" is not exact but partial, and "cat" vs "dog" is
neither. -/
theorem C4_evaluate_matching (ua ca : String) :
    ((LearningEngine.evaluate_answer ua ca).is_correct = true ↔
      LearningEngine.normalize_answer ua = LearningEngine.normalize_answer ca)
    ∧ ((LearningEngine.evaluate_answer ua ca).is_correct = true →
        (LearningEngine.evaluate_answer ua ca).partial_match = false)
    ∧ ((LearningEngine.evaluate_answer ua ca).is_correct = false →
        ((LearningEngine.evaluate_answer ua ca).partial_match = true ↔
          (LearningEngine.pyWords (LearningEngine.normalize_answer ca)).toFinset ≠ ∅ ∧
            (((LearningEngine.pyWords (LearningEngine.normalize_answer ua)).toFinset
                ∩ (LearningEngine.pyWords (LearningEngine.normalize_answer ca)).toFinset).card : ℚ)
              / ((LearningEngine.pyWords (LearningEngine.normalize_answer ca)).toFinset.card : ℚ)
              ≥ 0.6))
    ∧ (LearningEngine.evaluate_answer "I go to school" "I go to the school").is_correct = false
    ∧ (LearningEngine.evaluate_answer "I go to school" "I go to the school").partial_match = true
    ∧ (LearningEngine.evaluate_answer "cat" "dog").is_correct = false
    ∧ (LearningEngine.evaluate_answer "cat" "dog").partial_match = false := by
  refine ⟨?_, ?_, ?_, by decide, ?_, by decide, ?_⟩
  · rw [LearningEngine.evaluate_is_correct_eq]
    exact beq_iff_eq
  · intro h
    rw [LearningEngine.evaluate_partial_eq, if_pos (LearningEngine.evaluate_is_correct_eq ua ca ▸ h)]
  · intro h
    rw [LearningEngine.evaluate_is_correct_eq] at h
    rw [LearningEngine.evaluate_partial_eq, if_neg (by simp [h])]
    exact LearningEngine.check_partial_match_iff _ _
  · rw [LearningEngine.evaluate_partial_eq, if_neg (by decide)]
    rw [show LearningEngine.normalize_answer "I go to school" = "i go to school" from by decide,
      show LearningEngine.normalize_answer "I go to the school" = "i go to the school" from by decide]
    unfold LearningEngine.check_partial_match
    rw [if_neg (by simp), if_neg (by decide), decide_eq_true_eq]
    rw [show ((LearningEngine.pyWords "i go to school").toFinset
        ∩ (LearningEngine.pyWords "i go to the school").toFinset).card = 4 from by decide]
    rw [show (LearningEngine.pyWords "i go to the school").toFinset.card = 5 from by decide]
    norm_num
  · rw [LearningEngine.evaluate_partial_eq, if_neg (by decide)]
    rw [show LearningEngine.normalize_answer "cat" = "cat" from by decide,
      show LearningEngine.normalize_answer "dog" = "dog" from by decide]
    unfold LearningEngine.check_partial_match
    rw [if_neg (by simp), if_neg (by decide)]
    rw [show ((LearningEngine.pyWords "cat").toFinset
        ∩ (LearningEngine.pyWords "dog").toFinset).card = 0 from by decide]
    rw [show (LearningEngine.pyWords "dog").toFinset.card = 1 from by decide]
    rw [decide_eq_false_iff_not]
    norm_num

/-- Witness for C4: the partial-match characterization applied at the
non-exact pair "cat"/"dog", with its hypothesis discharged there. -/
theorem C4_evaluate_matching_witness :
    (LearningEngine.evaluate_answer "cat" "dog").partial_match = true ↔
      (LearningEngine.pyWords (LearningEngine.normalize_answer "dog")).toFinset ≠ ∅ ∧
        (((LearningEngine.pyWords (LearningEngine.normalize_answer "cat")).toFinset
            ∩ (LearningEngine.pyWords (LearningEngine.normalize_answer "dog")).toFinset).card : ℚ)
          / ((LearningEngine.pyWords (LearningEngine.normalize_answer "dog")).toFinset.card : ℚ)
          ≥ 0.6 :=
  (C4_evaluate_matching "cat" "dog").2.2.1 (by decide)

/-- C10: whenever both inputs normalize to the empty string — e.g.
punctuation-only answers — `evaluate_answer` reports an exact match:
correct, not partial. -/
theorem C10_both_empty_exact (ua ca : String)
    (hu : LearningEngine.normalize_answer ua = "")
    (hc : LearningEngine.normalize_answer ca = "") :
    (LearningEngine.evaluate_answer ua ca).is_correct = true
    ∧ (LearningEngine.evaluate_answer ua ca).partial_match = false := by
  have hb : (LearningEngine.normalize_answer ua == LearningEngine.normalize_answer ca) = true := by
    rw [hu, hc]; decide
  constructor
  · rw [LearningEngine.evaluate_is_correct_eq]
    exact hb
  · rw [LearningEngine.evaluate_partial_eq, if_pos hb]

/-- Witness for C10 at the punctuation-only pair "!!!" and "???". -/
theorem C10_both_empty_exact_witness :
    (LearningEngine.evaluate_answer "!!!" "???").is_correct = true
    ∧ (LearningEngine.evaluate_answer "!!!" "???").partial_match = false :=
  C10_both_empty_exact "!!!" "???" (by decide) (by decide)
